import Mathlib

/-!
Verification of the prediction web service in `protected_server.py`.

The server exposes two Flask endpoints, `/predict` and `/update`, over a
single-table store (`Prediction` model: `observation_id` unique integer key,
`observation` raw text, `proba` float, `true_class` nullable int).  We embed
the request bodies as a JSON value type, the handlers as pure functions on an
explicit store state, and the opaque external collaborators (the column list
`columns.json`, the dtype coercion `dtypes.pickle`, the trained pipeline
`pipeline.pickle`) as a configuration record of abstract functions.
-/

/-- A JSON value as it arrives in `request.get_json()`.  Numbers are modelled
as rationals (JSON decimal literals); objects are association lists in key
insertion order, mirroring Python dict order. -/
inductive JVal where
  | jnull : JVal
  | jbool : Bool → JVal
  | jnum : Rat → JVal
  | jstr : String → JVal
  | jarr : List JVal → JVal
  | jobj : List (String × JVal) → JVal

mutual

/-- Structural equality of JSON values (Python `==` on parsed JSON). -/
def jvalEq : JVal → JVal → Bool
  | .jnull, .jnull => true
  | .jbool a, .jbool b => a == b
  | .jnum a, .jnum b => a == b
  | .jstr a, .jstr b => a == b
  | .jarr xs, .jarr ys => jvalListEq xs ys
  | .jobj xs, .jobj ys => jvalFieldsEq xs ys
  | _, _ => false

def jvalListEq : List JVal → List JVal → Bool
  | [], [] => true
  | x :: xs, y :: ys => jvalEq x y && jvalListEq xs ys
  | _, _ => false

def jvalFieldsEq : List (String × JVal) → List (String × JVal) → Bool
  | [], [] => true
  | (k, v) :: xs, (l, w) :: ys => k == l && jvalEq v w && jvalFieldsEq xs ys
  | _, _ => false

end

mutual

def jvalEq_iff : ∀ a b : JVal, jvalEq a b = true ↔ a = b
  | .jnull, b => by cases b <;> simp [jvalEq]
  | .jbool a, b => by cases b <;> simp [jvalEq]
  | .jnum a, b => by cases b <;> simp [jvalEq]
  | .jstr a, b => by cases b <;> simp [jvalEq]
  | .jarr xs, b => by
      cases b <;> simp [jvalEq]
      exact jvalListEq_iff xs _
  | .jobj xs, b => by
      cases b <;> simp [jvalEq]
      exact jvalFieldsEq_iff xs _

def jvalListEq_iff : ∀ xs ys : List JVal, jvalListEq xs ys = true ↔ xs = ys
  | [], ys => by cases ys <;> simp [jvalListEq]
  | x :: xs, ys => by
      cases ys with
      | nil => simp [jvalListEq]
      | cons y ys =>
          simp [jvalListEq, jvalEq_iff x y, jvalListEq_iff xs ys]

def jvalFieldsEq_iff :
    ∀ xs ys : List (String × JVal), jvalFieldsEq xs ys = true ↔ xs = ys
  | [], ys => by cases ys <;> simp [jvalFieldsEq]
  | (k, v) :: xs, ys => by
      cases ys with
      | nil => simp [jvalFieldsEq]
      | cons y ys =>
          obtain ⟨l, w⟩ := y
          simp [jvalFieldsEq, jvalEq_iff v w, jvalFieldsEq_iff xs ys,
            and_assoc]

end

instance : DecidableEq JVal := fun a b => decidable_of_iff _ (jvalEq_iff a b)

/-- Association-list lookup, first match wins: the subscript `d[k]` on a
Python dict (successful case). -/
def lookupField : List (String × JVal) → String → Option JVal
  | [], _ => none
  | (k, v) :: rest, key => if k = key then some v else lookupField rest key

/-- `body[key]` as the `/predict` handler uses it under a `try`/`except`:
`none` exactly when the subscript raises (body is not a mapping, or the key
is absent). -/
def getKey : JVal → String → Option JVal
  | .jobj fields, key => lookupField fields key
  | _, _ => none

mutual

/-- Python `repr` of a parsed-JSON value, used by `str` on containers. -/
def pyRepr : JVal → String
  | .jnull => "None"
  | .jbool true => "True"
  | .jbool false => "False"
  | .jnum q => if q.den = 1 then toString q.num else toString q
  | .jstr s => "\x27" ++ s ++ "\x27"
  | .jarr xs => "[" ++ pyReprList xs ++ "]"
  | .jobj fs => "\x7b" ++ pyReprFields fs ++ "\x7d"

def pyReprList : List JVal → String
  | [] => ""
  | [x] => pyRepr x
  | x :: xs => pyRepr x ++ ", " ++ pyReprList xs

def pyReprFields : List (String × JVal) → String
  | [] => ""
  | [(k, v)] => "\x27" ++ k ++ "\x27: " ++ pyRepr v
  | (k, v) :: fs => "\x27" ++ k ++ "\x27: " ++ pyRepr v ++ ", " ++ pyReprFields fs

end

/-- Python `str`, as `"...".format(value)` renders an interpolated value:
strings appear bare, everything else as its `repr`. -/
def pyStr : JVal → String
  | .jstr s => s
  | v => pyRepr v

/-- The numeric content of a value when Python can compare it with an `int`
literal (`<=`, `<`, `>`): JSON numbers and booleans compare numerically,
anything else raises `TypeError`. -/
def pyNumVal : JVal → Option Rat
  | .jnum q => some q
  | .jbool b => some (if b then 1 else 0)
  | _ => none

/-- Python `v in opts` for a list of string literals: membership via `==`;
a non-string value simply is not a member (no exception). -/
def pyInStrList (v : JVal) (opts : List String) : Bool :=
  match v with
  | .jstr s => opts.contains s
  | _ => false

/-- One row of the `Prediction` peewee model: `observation_id` (unique key),
`observation` (raw request text), `proba`, `true_class` (nullable, absent at
creation). -/
structure PredictionRecord where
  observation_id : JVal
  observation : String
  proba : Rat
  true_class : Option Int
deriving DecidableEq

/-- The `predictions.db` table, in row insertion order. -/
abbrev Store := List PredictionRecord

/-- The ids present in the store, in row order. -/
def storeIds (st : Store) : List JVal :=
  st.map PredictionRecord.observation_id

/-- Whether a row with this `observation_id` already exists — the SQLite
unique-constraint check behind `p.save()`. -/
def hasId (st : Store) (i : JVal) : Bool :=
  st.any (fun r => r.observation_id = i)

/-- The startup configuration loaded from `columns.json`, `dtypes.pickle`
and `pipeline.pickle`: the ordered column list, the dtype coercion applied
by `.astype(dtypes)` (opaque, may raise — `none`), and the trained
pipeline's `predict` / `predict_proba` (opaque; `probaRow` is the single
row `predict_proba(obs)[0]` of class probabilities). -/
structure Config where
  columns : List String
  astype : List (String × Option JVal) → Option (List (String × JVal))
  pipePredict : List (String × JVal) → Bool
  probaRow : List (String × JVal) → List Rat

/-- `pd.DataFrame([observation], columns=columns)`: one row holding, for each
registry column in registry order, the observation's value (missing columns
become NaN, here `none`; extra keys are dropped). -/
def buildRow (cfg : Config) (fields : List (String × JVal)) :
    List (String × Option JVal) :=
  cfg.columns.map (fun c => (c, lookupField fields c))

/-- Outcome of one handler call: an HTTP 200 JSON body (Flask turns both a
returned dict and `jsonify(...)` into a 200 response), or an uncaught Python
exception (Flask's 500). -/
inductive HResp where
  | ok : JVal → HResp
  | fault : String → HResp
deriving DecidableEq

/-- Outcome of one validation check in the `/predict` handler: fall through
to the next check, return an error body with this reason, or raise. -/
inductive CheckOutcome where
  | pass : CheckOutcome
  | fail : String → CheckOutcome
  | cfault : String → CheckOutcome
deriving DecidableEq

/-- Sequencing of early-return checks: a non-`pass` outcome short-circuits. -/
def CheckOutcome.andThen : CheckOutcome → CheckOutcome → CheckOutcome
  | .pass, r => r
  | r, _ => r

/-- Run a list of checks left to right; the first non-passing outcome is the
result. -/
def firstNonPass : List CheckOutcome → CheckOutcome
  | [] => .pass
  | .pass :: rest => firstNonPass rest
  | r :: _ => r

def keyErrorMsg (k : String) : String := "KeyError: \x27" ++ k ++ "\x27"

def typeErrorMsg : String := "TypeError: comparison not supported with int"

/-- Lines 92-95: `for column in columns: if column not in request_columns:
return ..."<column> is missing"`.  The first registry column absent from the
request, in registry order, is reported. -/
def missingColumnsCheck (cfg : Config) (fields : List (String × JVal)) :
    CheckOutcome :=
  match cfg.columns.find? (fun c => !((fields.map Prod.fst).contains c)) with
  | some c => .fail (c ++ " is missing")
  | none => .pass

/-- Lines 98-101: `for column in request_columns: if column not in columns:
return ..."<column> is an extra column"`. -/
def extraColumnsCheck (cfg : Config) (fields : List (String × JVal)) :
    CheckOutcome :=
  match (fields.map Prod.fst).find? (fun c => !(cfg.columns.contains c)) with
  | some c => .fail (c ++ " is an extra column")
  | none => .pass

/-- `if obs_dict[\x27data\x27][key] not in opts: return ..."<value> is not a
valid option for <key>"`.  The subscript raises `KeyError` when the key is
absent from the data mapping. -/
def enumCheck (fields : List (String × JVal)) (key : String)
    (opts : List String) : CheckOutcome :=
  match lookupField fields key with
  | none => .cfault (keyErrorMsg key)
  | some v =>
      if pyInStrList v opts then .pass
      else .fail (pyStr v ++ " is not a valid option for " ++ key)

/-- `if d[key] <= 0 or d[key] > 100: return ...` — raises `TypeError` when
the value does not compare with an `int`. -/
def lowerUpperCheck (fields : List (String × JVal)) (key : String) :
    CheckOutcome :=
  match lookupField fields key with
  | none => .cfault (keyErrorMsg key)
  | some v =>
      match pyNumVal v with
      | none => .cfault typeErrorMsg
      | some a =>
          if a ≤ 0 ∨ 100 < a then
            .fail (pyStr v ++ " is not a valid option for " ++ key)
          else .pass

/-- `if d[key] < 0: return ...` — raises `TypeError` when the value does not
compare with an `int`. -/
def nonNegCheck (fields : List (String × JVal)) (key : String) :
    CheckOutcome :=
  match lookupField fields key with
  | none => .cfault (keyErrorMsg key)
  | some v =>
      match pyNumVal v with
      | none => .cfault typeErrorMsg
      | some a =>
          if a < 0 then
            .fail (pyStr v ++ " is not a valid option for " ++ key)
          else .pass

/-- Line 104: `data.sex ∈ {Male, Female}`. -/
def sexCheck (fields : List (String × JVal)) : CheckOutcome :=
  enumCheck fields "sex" ["Male", "Female"]

/-- Line 108: `data.race` in the five-value race enumeration. -/
def raceCheck (fields : List (String × JVal)) : CheckOutcome :=
  enumCheck fields "race"
    ["White", "Black", "Asian-Pac-Islander", "Amer-Indian-Eskimo", "Other"]

/-- Line 113: `data.age <= 0 or data.age > 100` fails. -/
def ageCheck (fields : List (String × JVal)) : CheckOutcome :=
  lowerUpperCheck fields "age"

/-- Line 117: `data.capital-gain < 0` fails. -/
def capitalGainCheck (fields : List (String × JVal)) : CheckOutcome :=
  nonNegCheck fields "capital-gain"

/-- Line 121: `data.capital-loss < 0` fails. -/
def capitalLossCheck (fields : List (String × JVal)) : CheckOutcome :=
  nonNegCheck fields "capital-loss"

/-- Line 125: `data.hours-per-week <= 0 or data.hours-per-week > 100`
fails. -/
def hoursPerWeekCheck (fields : List (String × JVal)) : CheckOutcome :=
  lowerUpperCheck fields "hours-per-week"

/-- Lines 89-127 of the `/predict` handler: the data-payload checks, run in
source order with early return. -/
def validateData (cfg : Config) (fields : List (String × JVal)) :
    CheckOutcome :=
  (missingColumnsCheck cfg fields).andThen <|
  (extraColumnsCheck cfg fields).andThen <|
  (sexCheck fields).andThen <|
  (raceCheck fields).andThen <|
  (ageCheck fields).andThen <|
  (capitalGainCheck fields).andThen <|
  (capitalLossCheck fields).andThen <|
  hoursPerWeekCheck fields

/-- An early-return validation error body: `{"observation_id": ..., "error":
...}`. -/
def errorBody (i : JVal) (reason : String) : JVal :=
  .jobj [("observation_id", i), ("error", .jstr reason)]

/-- Line 145: `"ERROR: Observation ID: \x27{}\x27 already exists".format(_id)`. -/
def duplicateMsg (i : JVal) : String :=
  "ERROR: Observation ID: \x27" ++ pyStr i ++ "\x27 already exists"

/-- The `/predict` Flask handler (lines 68-150) as a function of the startup
configuration, the current store, the parsed JSON body and the raw request
text (`request.data`).  Returns the HTTP outcome and the new store state.
On a duplicate `observation_id`, `p.save()` raises `IntegrityError`, the
handler appends the error message to the response, and `DB.rollback()`
leaves the store unchanged. -/
def predict (cfg : Config) (st : Store) (body : JVal) (raw : String) :
    HResp × Store :=
  match getKey body "observation_id" with
  | none =>
      (.ok (.jobj [("observation_id", .jnull),
                   ("error", .jstr "observation_id is missing")]), st)
  | some i =>
    match getKey body "data" with
    | none => (.ok (errorBody i "data is missing"), st)
    | some d =>
      match d with
      | .jobj fields =>
        match validateData cfg fields with
        | .fail reason => (.ok (errorBody i reason), st)
        | .cfault msg => (.fault msg, st)
        | .pass =>
          match cfg.astype (buildRow cfg fields) with
          | none => (.fault "ValueError: astype", st)
          | some row =>
            let prediction := cfg.pipePredict row
            match cfg.probaRow row with
            | [] => (.fault "IndexError: index 0 is out of bounds", st)
            | probability :: _ =>
              if hasId st i then
                (.ok (.jobj [("observation_id", i),
                             ("prediction", .jbool prediction),
                             ("probability", .jnum probability),
                             ("error", .jstr (duplicateMsg i))]), st)
              else
                (.ok (.jobj [("observation_id", i),
                             ("prediction", .jbool prediction),
                             ("probability", .jnum probability)]),
                 st ++ [⟨i, raw, probability, none⟩])
      | _ => (.fault "AttributeError: object has no attribute keys", st)

/-- The `/update` Flask handler (lines 154-164).  Its first statement,
`obs = obs_dict.get_json()`, reads the name `obs_dict`, which is bound only
as a local variable inside `predict` and is not defined at module scope, so
every call raises `NameError` before the `try` block is entered and before
any store access; the store is left unchanged and Flask surfaces the
exception as a 500. -/
def update (st : Store) (_body : JVal) : HResp × Store :=
  (.fault "NameError: name \x27obs_dict\x27 is not defined", st)

/-- Whether `request.get_json()` produced a Python mapping. -/
def isMapping : JVal → Bool
  | .jobj _ => true
  | _ => false

/-- The request carries an id and a mapping payload, and every data check
passes. -/
def ValidRequest (cfg : Config) (body : JVal) (i : JVal)
    (fields : List (String × JVal)) : Prop :=
  getKey body "observation_id" = some i ∧
  getKey body "data" = some (.jobj fields) ∧
  validateData cfg fields = .pass

/-- One store transition: a `/predict` or `/update` call with an arbitrary
request. -/
inductive Step (cfg : Config) : Store → Store → Prop
  | predictStep (st : Store) (body : JVal) (raw : String) :
      Step cfg st (predict cfg st body raw).2
  | updateStep (st : Store) (body : JVal) :
      Step cfg st (update st body).2

/-- Store states reachable from the empty table through handler calls. -/
inductive Reachable (cfg : Config) : Store → Prop
  | init : Reachable cfg []
  | step {st st' : Store} : Reachable cfg st → Step cfg st st' →
      Reachable cfg st'

/-- A concrete column registry for witnesses: the fourteen adult-census
feature columns the validator's checked fields belong to. -/
def demoColumns : List String :=
  ["age", "workclass", "fnlwgt", "education", "education-num",
   "marital-status", "occupation", "relationship", "race", "sex",
   "capital-gain", "capital-loss", "hours-per-week", "native-country"]

/-- A concrete startup configuration for witnesses: identity-like dtype
coercion and a fixed pipeline output. -/
def demoCfg : Config :=
  ⟨demoColumns,
   fun r => some (r.map (fun p => (p.1, p.2.getD .jnull))),
   fun _ => false,
   fun _ => [mkRat 7 10, mkRat 3 10]⟩

/-- A well-formed data payload, parameterised by the age value. -/
def demoFieldsAge (a : JVal) : List (String × JVal) :=
  [("age", a), ("workclass", .jstr "Private"), ("fnlwgt", .jnum 100000),
   ("education", .jstr "Bachelors"), ("education-num", .jnum 13),
   ("marital-status", .jstr "Never-married"), ("occupation", .jstr "Sales"),
   ("relationship", .jstr "Husband"), ("race", .jstr "White"),
   ("sex", .jstr "Male"), ("capital-gain", .jnum 0),
   ("capital-loss", .jnum 0), ("hours-per-week", .jnum 40),
   ("native-country", .jstr "United-States")]

/-- A fully valid demo payload (age 50). -/
def demoFields : List (String × JVal) := demoFieldsAge (.jnum 50)

/-- A request body `{"observation_id": i, "data": {...}}`. -/
def mkBody (i : JVal) (fields : List (String × JVal)) : JVal :=
  .jobj [("observation_id", i), ("data", .jobj fields)]

/-- The coerced single-row table for the demo payload. -/
def demoRow : List (String × JVal) :=
  (buildRow demoCfg demoFields).map (fun f => (f.1, f.2.getD .jnull))

theorem andThen_pass (c : CheckOutcome) : c.andThen .pass = c := by
  cases c <;> rfl

theorem firstNonPass_cons (c : CheckOutcome) (cs : List CheckOutcome) :
    firstNonPass (c :: cs) = c.andThen (firstNonPass cs) := by
  cases c <;> rfl

theorem predict_no_id (cfg : Config) (st : Store) (body : JVal) (raw : String)
    (h : getKey body "observation_id" = none) :
    predict cfg st body raw
      = (.ok (.jobj [("observation_id", .jnull),
                     ("error", .jstr "observation_id is missing")]), st) := by
  unfold predict
  rw [h]

theorem predict_no_data (cfg : Config) (st : Store) (body : JVal)
    (raw : String) (i : JVal)
    (h1 : getKey body "observation_id" = some i)
    (h2 : getKey body "data" = none) :
    predict cfg st body raw = (.ok (errorBody i "data is missing"), st) := by
  unfold predict
  rw [h1, h2]

theorem predict_invalid (cfg : Config) (st : Store) (body : JVal)
    (raw : String) (i : JVal) (fields : List (String × JVal)) (r : String)
    (h1 : getKey body "observation_id" = some i)
    (h2 : getKey body "data" = some (.jobj fields))
    (h3 : validateData cfg fields = .fail r) :
    predict cfg st body raw = (.ok (errorBody i r), st) := by
  unfold predict
  simp only [h1, h2, h3]

theorem predict_vfault (cfg : Config) (st : Store) (body : JVal)
    (raw : String) (i : JVal) (fields : List (String × JVal)) (m : String)
    (h1 : getKey body "observation_id" = some i)
    (h2 : getKey body "data" = some (.jobj fields))
    (h3 : validateData cfg fields = .cfault m) :
    predict cfg st body raw = (.fault m, st) := by
  unfold predict
  simp only [h1, h2, h3]

theorem predict_valid_eq (cfg : Config) (st : Store) (body : JVal)
    (raw : String) (i : JVal) (fields row : List (String × JVal))
    (p : Rat) (rest : List Rat)
    (hv : ValidRequest cfg body i fields)
    (hrow : cfg.astype (buildRow cfg fields) = some row)
    (hp : cfg.probaRow row = p :: rest) :
    predict cfg st body raw =
      if hasId st i then
        (.ok (.jobj [("observation_id", i),
                     ("prediction", .jbool (cfg.pipePredict row)),
                     ("probability", .jnum p),
                     ("error", .jstr (duplicateMsg i))]), st)
      else
        (.ok (.jobj [("observation_id", i),
                     ("prediction", .jbool (cfg.pipePredict row)),
                     ("probability", .jnum p)]),
         st ++ [⟨i, raw, p, none⟩]) := by
  obtain ⟨h1, h2, h3⟩ := hv
  unfold predict
  simp only [h1, h2, h3, hrow, hp]

theorem hasId_eq_true_iff (st : Store) (i : JVal) :
    hasId st i = true ↔ i ∈ storeIds st := by
  simp [hasId, storeIds, List.any_eq_true, List.mem_map]

theorem storeIds_append_single (st : Store) (r : PredictionRecord) :
    storeIds (st ++ [r]) = storeIds st ++ [r.observation_id] := by
  simp [storeIds]

theorem nodup_storeIds_append (st : Store) (r : PredictionRecord)
    (h : (storeIds st).Nodup) (hf : hasId st r.observation_id = false) :
    (storeIds (st ++ [r])).Nodup := by
  have hnm : r.observation_id ∉ storeIds st := by
    rw [← hasId_eq_true_iff]
    simp [hf]
  rw [storeIds_append_single]
  simp [List.nodup_append, h, hnm]

/-- Every `/predict` call either leaves the store unchanged or appends a
single row whose id was not yet present. -/
theorem predict_store_shape (cfg : Config) (st : Store) (body : JVal)
    (raw : String) :
    (predict cfg st body raw).2 = st ∨
    ∃ r, (predict cfg st body raw).2 = st ++ [r] ∧
      hasId st r.observation_id = false := by
  unfold predict
  repeat' split
  any_goals (left; rfl)
  rename_i hnot
  right
  exact ⟨_, rfl, by simpa using hnot⟩

/-- Any `/predict` call whose body carries an already-stored id leaves the
store exactly as it was. -/
theorem predict_snd_of_hasId (cfg : Config) (st : Store) (body : JVal)
    (raw : String) (i : JVal)
    (h1 : getKey body "observation_id" = some i)
    (h2 : hasId st i = true) :
    (predict cfg st body raw).2 = st := by
  unfold predict
  simp only [h1]
  repeat' split
  all_goals rfl

/-- Claim C1: two `/predict` calls carrying the same `observation_id` and
valid payloads create exactly one store row; the second call's response
still holds the prediction and probability computed for that second call
plus an error noting the duplicate id, the stored row keeps the first
call's probability, and the second call leaves the store untouched (the
failed insert is rolled back). -/
theorem C1_duplicate_id_single_row (cfg : Config) (st : Store)
    (body body2 : JVal) (raw raw2 : String) (i : JVal)
    (fields fields2 row row2 : List (String × JVal))
    (p p2 : Rat) (rest rest2 : List Rat)
    (hv1 : ValidRequest cfg body i fields)
    (hr1 : cfg.astype (buildRow cfg fields) = some row)
    (hp1 : cfg.probaRow row = p :: rest)
    (hv2 : ValidRequest cfg body2 i fields2)
    (hr2 : cfg.astype (buildRow cfg fields2) = some row2)
    (hp2 : cfg.probaRow row2 = p2 :: rest2)
    (hfresh : hasId st i = false) :
    (predict cfg st body raw).2 = st ++ [⟨i, raw, p, none⟩] ∧
    predict cfg ((predict cfg st body raw).2) body2 raw2
      = (.ok (.jobj [("observation_id", i),
                     ("prediction", .jbool (cfg.pipePredict row2)),
                     ("probability", .jnum p2),
                     ("error", .jstr (duplicateMsg i))]),
         st ++ [⟨i, raw, p, none⟩]) := by
  have hne : ¬(hasId st i = true) := by simp [hfresh]
  have e1 : (predict cfg st body raw).2 = st ++ [⟨i, raw, p, none⟩] := by
    rw [predict_valid_eq cfg st body raw i fields row p rest hv1 hr1 hp1,
      if_neg hne]
  have hdup : hasId (st ++ [⟨i, raw, p, none⟩]) i = true := by
    simp [hasId]
  refine ⟨e1, ?_⟩
  have h2 := predict_valid_eq cfg (st ++ [⟨i, raw, p, none⟩]) body2 raw2 i
    fields2 row2 p2 rest2 hv2 hr2 hp2
  rw [if_pos hdup] at h2
  rw [e1]
  exact h2

theorem C1_witness :
    (predict demoCfg [] (mkBody (.jnum 1) demoFields) "raw").2
        = [] ++ [⟨.jnum 1, "raw", mkRat 7 10, none⟩] ∧
    predict demoCfg ((predict demoCfg [] (mkBody (.jnum 1) demoFields)
        "raw").2) (mkBody (.jnum 1) demoFields) "raw2"
      = (.ok (.jobj [("observation_id", .jnum 1),
                     ("prediction", .jbool (demoCfg.pipePredict demoRow)),
                     ("probability", .jnum (mkRat 7 10)),
                     ("error", .jstr (duplicateMsg (.jnum 1)))]),
         [] ++ [⟨.jnum 1, "raw", mkRat 7 10, none⟩]) :=
  C1_duplicate_id_single_row demoCfg [] (mkBody (.jnum 1) demoFields)
    (mkBody (.jnum 1) demoFields) "raw" "raw2" (.jnum 1) demoFields
    demoFields demoRow demoRow (mkRat 7 10) (mkRat 7 10) [mkRat 3 10]
    [mkRat 3 10] ⟨rfl, rfl, by decide⟩ rfl rfl ⟨rfl, rfl, by decide⟩ rfl rfl
    rfl

/-- Claim C2 (code bug): the `/update` handler is supposed to set
`true_class` on the record matching the requested id and return the updated
record, but its first statement reads the undefined name `obs_dict`, so even
with a matching stored record the call raises `NameError` and the record is
left untouched. -/
theorem C2_update_known_id_raises_name_error :
    update [⟨.jnum 1, "raw", mkRat 7 10, none⟩]
        (.jobj [("id", .jnum 1), ("true_class", .jnum 1)])
      = (.fault "NameError: name \x27obs_dict\x27 is not defined",
         [⟨.jnum 1, "raw", mkRat 7 10, none⟩]) := rfl

/-- Claim C3 (code bug): the `/update` handler is supposed to answer an
unknown id with the JSON body `\x7b"error": "Observation ID: \x22<id>\x22
does not exist"\x7d`, but the undefined name `obs_dict` makes it raise
`NameError` instead; no stored record is mutated. -/
theorem C3_update_unknown_id_raises_name_error :
    update [] (.jobj [("id", .jnum 99), ("true_class", .jnum 1)])
      = (.fault "NameError: name \x27obs_dict\x27 is not defined", []) := rfl

/-- Claim C4: in every reachable store state the observation ids are
pairwise distinct, and a second insert attempt with a colliding id fails
without corrupting the store: any `/predict` call carrying an
already-stored id leaves the store exactly as it was. -/
theorem C4_observation_id_unique (cfg : Config) (st : Store)
    (h : Reachable cfg st) :
    (storeIds st).Nodup ∧
    ∀ (body : JVal) (raw : String) (i : JVal),
      getKey body "observation_id" = some i → hasId st i = true →
      (predict cfg st body raw).2 = st := by
  refine ⟨?_, fun body raw i h1 h2 =>
    predict_snd_of_hasId cfg st body raw i h1 h2⟩
  induction h with
  | init => simp [storeIds]
  | @step s s' hr hs ih =>
      cases hs with
      | predictStep body raw =>
          rcases predict_store_shape cfg s body raw with he | ⟨r, he, hf⟩
          · rw [he]; exact ih
          · rw [he]; exact nodup_storeIds_append s r ih hf
      | updateStep body => exact ih

theorem C4_witness :
    (storeIds
        (predict demoCfg [] (mkBody (.jnum 1) demoFields) "raw").2).Nodup ∧
    ∀ (body : JVal) (raw : String) (i : JVal),
      getKey body "observation_id" = some i →
      hasId (predict demoCfg [] (mkBody (.jnum 1) demoFields) "raw").2 i
        = true →
      (predict demoCfg
          ((predict demoCfg [] (mkBody (.jnum 1) demoFields) "raw").2)
          body raw).2
        = (predict demoCfg [] (mkBody (.jnum 1) demoFields) "raw").2 :=
  C4_observation_id_unique demoCfg _
    (Reachable.step Reachable.init
      (Step.predictStep [] (mkBody (.jnum 1) demoFields) "raw"))

/-- Claim C5: the ten validation checks run in the listed order with the
first failure short-circuiting, and its reason string is returned verbatim:
the id-presence check runs first, then data presence, then the eight data
checks (required columns, extra columns, sex, race, age, capital-gain,
capital-loss, hours-per-week) in exactly that order; a request with extra
column "foo" is answered with exactly "foo is an extra column". -/
theorem C5_checks_run_in_order :
    (∀ (cfg : Config) (fields : List (String × JVal)),
       validateData cfg fields = firstNonPass
         [missingColumnsCheck cfg fields, extraColumnsCheck cfg fields,
          sexCheck fields, raceCheck fields, ageCheck fields,
          capitalGainCheck fields, capitalLossCheck fields,
          hoursPerWeekCheck fields]) ∧
    (∀ (cfg : Config) (st : Store) (body : JVal) (raw : String),
       getKey body "observation_id" = none →
       predict cfg st body raw
         = (.ok (.jobj [("observation_id", .jnull),
                        ("error", .jstr "observation_id is missing")]), st)) ∧
    (∀ (cfg : Config) (st : Store) (body : JVal) (raw : String) (i : JVal),
       getKey body "observation_id" = some i →
       getKey body "data" = none →
       predict cfg st body raw = (.ok (errorBody i "data is missing"), st)) ∧
    (∀ (cfg : Config) (st : Store) (body : JVal) (raw : String) (i : JVal)
       (fields : List (String × JVal)) (r : String),
       getKey body "observation_id" = some i →
       getKey body "data" = some (.jobj fields) →
       validateData cfg fields = .fail r →
       predict cfg st body raw = (.ok (errorBody i r), st)) ∧
    predict demoCfg []
        (mkBody (.jnum 1) (demoFields ++ [("foo", .jnum 1)])) ""
      = (.ok (errorBody (.jnum 1) "foo is an extra column"), []) := by
  refine ⟨fun cfg fields => ?_, predict_no_id, predict_no_data,
    predict_invalid, by decide⟩
  simp only [validateData, firstNonPass_cons, firstNonPass, andThen_pass]

theorem C5_witness :
    validateData demoCfg (demoFields ++ [("foo", .jnum 1)]) = firstNonPass
        [missingColumnsCheck demoCfg (demoFields ++ [("foo", .jnum 1)]),
         extraColumnsCheck demoCfg (demoFields ++ [("foo", .jnum 1)]),
         sexCheck (demoFields ++ [("foo", .jnum 1)]),
         raceCheck (demoFields ++ [("foo", .jnum 1)]),
         ageCheck (demoFields ++ [("foo", .jnum 1)]),
         capitalGainCheck (demoFields ++ [("foo", .jnum 1)]),
         capitalLossCheck (demoFields ++ [("foo", .jnum 1)]),
         hoursPerWeekCheck (demoFields ++ [("foo", .jnum 1)])] ∧
    predict demoCfg [] (.jnum 3) ""
      = (.ok (.jobj [("observation_id", .jnull),
                     ("error", .jstr "observation_id is missing")]), []) :=
  ⟨C5_checks_run_in_order.1 demoCfg (demoFields ++ [("foo", .jnum 1)]),
   C5_checks_run_in_order.2.1 demoCfg [] (.jnum 3) "" rfl⟩

/-- Claim C6: every validation failure is answered with an HTTP-success JSON
body holding exactly `observation_id` and `error` (no `prediction` or
`probability` field) and creates no store row; a request without
`observation_id` gets id `null` and reason `"observation_id is missing"`. -/
theorem C6_validation_failure_http_success (cfg : Config) (st : Store)
    (body : JVal) (raw : String) :
    (getKey body "observation_id" = none →
       predict cfg st body raw
         = (.ok (.jobj [("observation_id", .jnull),
                        ("error", .jstr "observation_id is missing")]), st)) ∧
    (∀ i, getKey body "observation_id" = some i →
       getKey body "data" = none →
       predict cfg st body raw
         = (.ok (.jobj [("observation_id", i),
                        ("error", .jstr "data is missing")]), st)) ∧
    (∀ i fields r, getKey body "observation_id" = some i →
       getKey body "data" = some (.jobj fields) →
       validateData cfg fields = .fail r →
       predict cfg st body raw
         = (.ok (.jobj [("observation_id", i), ("error", .jstr r)]), st)) :=
  ⟨fun h => predict_no_id cfg st body raw h,
   fun i h1 h2 => predict_no_data cfg st body raw i h1 h2,
   fun i fields r h1 h2 h3 => predict_invalid cfg st body raw i fields r h1 h2 h3⟩

theorem C6_witness :
    predict demoCfg [] (.jobj [("observation_id", .jnum 7)]) ""
      = (.ok (.jobj [("observation_id", .jnum 7),
                     ("error", .jstr "data is missing")]), []) :=
  (C6_validation_failure_http_success demoCfg []
      (.jobj [("observation_id", .jnum 7)]) "").2.1 (.jnum 7) rfl rfl

/-- Claim C7: for every request that passes validation, both the probability
in the response and the stored `proba` are the scorer output at index
`[0][0]` — the head of `predict_proba`'s first row, i.e. the first/negative
class — for every possible pipeline, hence regardless of which label
`pipePredict` returns; it is never the probability of the predicted
class. -/
theorem C7_probability_is_first_class_column (cfg : Config) (st : Store)
    (body : JVal) (raw : String) (i : JVal)
    (fields row : List (String × JVal)) (p : Rat) (rest : List Rat)
    (hv : ValidRequest cfg body i fields)
    (hrow : cfg.astype (buildRow cfg fields) = some row)
    (hp : cfg.probaRow row = p :: rest) :
    (predict cfg st body raw).1
      = .ok (.jobj ([("observation_id", i),
                     ("prediction", .jbool (cfg.pipePredict row)),
                     ("probability", .jnum p)] ++
            (if hasId st i then [("error", .jstr (duplicateMsg i))] else []))) ∧
    (predict cfg st body raw).2
      = (if hasId st i then st else st ++ [⟨i, raw, p, none⟩]) := by
  rw [predict_valid_eq cfg st body raw i fields row p rest hv hrow hp]
  by_cases h : hasId st i <;> simp [h]

theorem C7_witness :
    (predict demoCfg [] (mkBody (.jnum 1) demoFields) "raw").1
      = .ok (.jobj ([("observation_id", .jnum 1),
             ("prediction", .jbool (demoCfg.pipePredict demoRow)),
             ("probability", .jnum (mkRat 7 10))] ++ [])) ∧
    (predict demoCfg [] (mkBody (.jnum 1) demoFields) "raw").2
      = [⟨.jnum 1, "raw", mkRat 7 10, none⟩] := by
  have h := C7_probability_is_first_class_column demoCfg []
    (mkBody (.jnum 1) demoFields) "raw" (.jnum 1) demoFields demoRow
    (mkRat 7 10) [mkRat 3 10] ⟨rfl, rfl, by decide⟩ rfl rfl
  exact ⟨by rw [h.1]; rfl, by rw [h.2]; rfl⟩

/-- Claim C8: the age check passes exactly when `0 < age ≤ 100`; through the
full handler, age 0 and age 150 are rejected with reason
`"<value> is not a valid option for age"`, and age 50 passes the check. -/
theorem C8_age_range :
    (∀ (fields : List (String × JVal)) (q : Rat),
       lookupField fields "age" = some (.jnum q) →
       (ageCheck fields = .pass ↔ 0 < q ∧ q ≤ 100)) ∧
    predict demoCfg [] (mkBody (.jnum 1) (demoFieldsAge (.jnum 0))) ""
      = (.ok (errorBody (.jnum 1) "0 is not a valid option for age"), []) ∧
    predict demoCfg [] (mkBody (.jnum 1) (demoFieldsAge (.jnum 150))) ""
      = (.ok (errorBody (.jnum 1) "150 is not a valid option for age"), []) ∧
    ageCheck (demoFieldsAge (.jnum 50)) = .pass := by
  refine ⟨fun fields q h => ?_, by decide, by decide, by decide⟩
  simp only [ageCheck, lowerUpperCheck, h, pyNumVal]
  constructor
  · intro hpass
    by_contra hc
    rw [not_and_or, not_lt, not_le] at hc
    have : q ≤ 0 ∨ 100 < q := hc
    simp [if_pos this] at hpass
  · intro ⟨h0, h100⟩
    have : ¬(q ≤ 0 ∨ 100 < q) := by
      rw [not_or, not_le, not_lt]
      exact ⟨h0, h100⟩
    simp [if_neg this]

theorem C8_witness :
    ageCheck (demoFieldsAge (.jnum 50)) = .pass ↔
      (0 : Rat) < 50 ∧ (50 : Rat) ≤ 100 :=
  C8_age_range.1 (demoFieldsAge (.jnum 50)) 50 rfl

/-- Claim C9: when the request body is not a mapping at all (array, number,
string, boolean or null), subscripting it raises, the bare `except` catches
the exception, and the handler answers
`\x7b"observation_id": null, "error": "observation_id is missing"\x7d`
without touching the store — the missing-id branch fires for every
non-indexable body shape. -/
theorem C9_non_mapping_body_reports_missing_id (cfg : Config) (st : Store)
    (body : JVal) (raw : String) (h : isMapping body = false) :
    predict cfg st body raw
      = (.ok (.jobj [("observation_id", .jnull),
                     ("error", .jstr "observation_id is missing")]), st) := by
  have hnone : getKey body "observation_id" = none := by
    cases body <;> first | rfl | simp [isMapping] at h
  exact predict_no_id cfg st body raw hnone

theorem C9_witness :
    isMapping (.jarr [.jnum 1]) = false ∧
    predict demoCfg [] (.jarr [.jnum 1]) ""
      = (.ok (.jobj [("observation_id", .jnull),
                     ("error", .jstr "observation_id is missing")]), []) :=
  ⟨rfl, C9_non_mapping_body_reports_missing_id demoCfg [] (.jarr [.jnum 1])
    "" rfl⟩

/-- Claim C10: validation compares raw, un-coerced JSON values; when every
registry column is present with no extras and the categorical checks pass,
but one of the four numeric fields (age, capital-gain, capital-loss,
hours-per-week) holds a value that does not compare with an `int` (e.g. a
string), the range check raises an uncaught `TypeError` instead of
returning a validation error — the dtype coercion only runs after all
checks succeed. -/
theorem C10_non_numeric_range_value_raises :
    (∀ (cfg : Config) (st : Store) (body : JVal) (raw : String) (i : JVal)
       (fields : List (String × JVal)) (v : JVal),
       getKey body "observation_id" = some i →
       getKey body "data" = some (.jobj fields) →
       missingColumnsCheck cfg fields = .pass →
       extraColumnsCheck cfg fields = .pass →
       sexCheck fields = .pass →
       raceCheck fields = .pass →
       lookupField fields "age" = some v →
       pyNumVal v = none →
       predict cfg st body raw = (.fault typeErrorMsg, st)) ∧
    (∀ (cfg : Config) (fields : List (String × JVal)) (v : JVal),
       missingColumnsCheck cfg fields = .pass →
       extraColumnsCheck cfg fields = .pass →
       sexCheck fields = .pass →
       raceCheck fields = .pass →
       ageCheck fields = .pass →
       lookupField fields "capital-gain" = some v →
       pyNumVal v = none →
       validateData cfg fields = .cfault typeErrorMsg) ∧
    (∀ (cfg : Config) (fields : List (String × JVal)) (v : JVal),
       missingColumnsCheck cfg fields = .pass →
       extraColumnsCheck cfg fields = .pass →
       sexCheck fields = .pass →
       raceCheck fields = .pass →
       ageCheck fields = .pass →
       capitalGainCheck fields = .pass →
       lookupField fields "capital-loss" = some v →
       pyNumVal v = none →
       validateData cfg fields = .cfault typeErrorMsg) ∧
    (∀ (cfg : Config) (fields : List (String × JVal)) (v : JVal),
       missingColumnsCheck cfg fields = .pass →
       extraColumnsCheck cfg fields = .pass →
       sexCheck fields = .pass →
       raceCheck fields = .pass →
       ageCheck fields = .pass →
       capitalGainCheck fields = .pass →
       capitalLossCheck fields = .pass →
       lookupField fields "hours-per-week" = some v →
       pyNumVal v = none →
       validateData cfg fields = .cfault typeErrorMsg) := by
  refine ⟨?_, ?_, ?_, ?_⟩
  · intro cfg st body raw i fields v h1 h2 hm hx hs hr hl hn
    have hage : ageCheck fields = .cfault typeErrorMsg := by
      simp only [ageCheck, lowerUpperCheck, hl, hn]
    have hval : validateData cfg fields = .cfault typeErrorMsg := by
      simp only [validateData, hm, hx, hs, hr, hage, CheckOutcome.andThen]
    exact predict_vfault cfg st body raw i fields typeErrorMsg h1 h2 hval
  · intro cfg fields v hm hx hs hr ha hl hn
    have hg : capitalGainCheck fields = .cfault typeErrorMsg := by
      simp only [capitalGainCheck, nonNegCheck, hl, hn]
    simp only [validateData, hm, hx, hs, hr, ha, hg, CheckOutcome.andThen]
  · intro cfg fields v hm hx hs hr ha hg hl hn
    have hc : capitalLossCheck fields = .cfault typeErrorMsg := by
      simp only [capitalLossCheck, nonNegCheck, hl, hn]
    simp only [validateData, hm, hx, hs, hr, ha, hg, hc, CheckOutcome.andThen]
  · intro cfg fields v hm hx hs hr ha hg hc hl hn
    have hh : hoursPerWeekCheck fields = .cfault typeErrorMsg := by
      simp only [hoursPerWeekCheck, lowerUpperCheck, hl, hn]
    simp only [validateData, hm, hx, hs, hr, ha, hg, hc, hh,
      CheckOutcome.andThen]

theorem C10_witness :
    predict demoCfg []
        (mkBody (.jnum 1) (demoFieldsAge (.jstr "fifty"))) ""
      = (.fault typeErrorMsg, []) :=
  C10_non_numeric_range_value_raises.1 demoCfg []
    (mkBody (.jnum 1) (demoFieldsAge (.jstr "fifty"))) "" (.jnum 1)
    (demoFieldsAge (.jstr "fifty")) (.jstr "fifty") rfl rfl (by decide)
    (by decide) (by decide) (by decide) rfl rfl
